import Mathlib

/-!
Verification of the mindustry-notifier detection-and-debounce engine
(src/notifier.py), shallowly embedded in Lean 4.

The embedding covers:
* GameState, the five-valued classification enum (notifier.py lines 16-21);
* is_boss_pixel and the pixel-scan loop of Notifier.game_state
  (lines 74-138), with the externally observed facts of one sampling
  attempt (window handle found, iconic flag, PrintWindow return value,
  captured pixels) gathered in a Sample record;
* the per-tick debounce state machine of Notifier.monitor (lines 143-167),
  with the mutable Notifier fields prev_state and active_time_without_boss
  plus the tray flag windows_notifier.alive gathered in a Session record;
* the throttled Notifier.log method (lines 69-72) as a Logger record;
* the option strings registered on the argparse parser (lines 304-311).

Pixel channel values and times are modelled as rationals; the Python code
computes with floats, and every constant involved is an exact decimal.
-/

namespace Mindustry

/-- GameState enum, notifier.py lines 16-21. -/
inductive GameState where
  | NOT_FOUND
  | SCREENSHOT_FAIL
  | MINIMIZED
  | BOSS_WAVE
  | OTHER
deriving DecidableEq

/-- Notifier.CHECK_STATE_INTERVAL = 0.5 (line 51): seconds slept between
ticks, and the amount added to active_time_without_boss per OTHER tick. -/
def CHECK_STATE_INTERVAL : ℚ := 1/2

/-- Notifier.MIN_BOSS_INTERVAL = 120 (line 53). -/
def MIN_BOSS_INTERVAL : ℚ := 120

/-- Notifier.SCREENSHOT_X1 = 20 (line 54). -/
def SCREENSHOT_X1 : ℕ := 20

/-- Notifier.SCREENSHOT_X2 = 25 (line 55). -/
def SCREENSHOT_X2 : ℕ := 25

/-- Notifier.SCREENSHOT_Y1 = 145 (line 56). -/
def SCREENSHOT_Y1 : ℕ := 145

/-- Notifier.SCREENSHOT_Y2 = 175 (line 57). -/
def SCREENSHOT_Y2 : ℕ := 175

/-- An RGB pixel, as the triple read by getpixel. -/
structure Pixel where
  r : ℚ
  g : ℚ
  b : ℚ

/-- Notifier.is_boss_pixel (lines 74-80): the luma
0.2126*r + 0.7152*g + 0.0722*b lies strictly within err = 1.0 of
lum_boss = 93.425. -/
def is_boss_pixel (p : Pixel) : Bool :=
  let lum_pixel : ℚ := 2126/10000 * p.r + 7152/10000 * p.g + 722/10000 * p.b
  let lum_boss : ℚ := 93425/1000
  let err : ℚ := 1
  decide (|lum_pixel - lum_boss| < err)

/-- Width of the cropped region, SCREENSHOT_X2 - SCREENSHOT_X1 (line 115). -/
def regionWidth : ℕ := SCREENSHOT_X2 - SCREENSHOT_X1

/-- Height of the cropped region, SCREENSHOT_Y2 - SCREENSHOT_Y1 (line 116). -/
def regionHeight : ℕ := SCREENSHOT_Y2 - SCREENSHOT_Y1

/-- A captured pixel region: px x y is the pixel getpixel((x, y)) of the
cropped image. -/
def Region : Type := ℕ → ℕ → Pixel

/-- The double scan loop of Notifier.game_state (lines 113-125):
state starts as BOSS_WAVE; for i in range(1, width), for j in
range(1, height), the first pixel failing is_boss_pixel sets state to
OTHER and breaks out of both loops.  Net result: BOSS_WAVE exactly when
every scanned pixel passes.  Both loops start at index 1, so column 0 and
row 0 of the region are never examined. -/
def scanState (px : Region) : GameState :=
  if (List.range' 1 (regionWidth - 1)).all fun i =>
      (List.range' 1 (regionHeight - 1)).all fun j => is_boss_pixel (px i j)
  then GameState.BOSS_WAVE else GameState.OTHER

/-- One sampling attempt's externally determined facts: whether FindWindow
returned a nonzero handle (line 86), the IsIconic flag (line 90), the
PrintWindow return value (line 105), and the captured cropped pixels. -/
structure Sample where
  windowExists : Bool
  isIconic : Bool
  printResult : ℤ
  px : Region

/-- Notifier.game_state (lines 82-138): NOT_FOUND if the window does not
exist, else MINIMIZED if iconic, else the pixel scan runs; its result is
discarded in favour of SCREENSHOT_FAIL when PrintWindow did not return 1
(the result check on line 135 comes after the scan). -/
def game_state (s : Sample) : GameState :=
  if s.windowExists = false then GameState.NOT_FOUND
  else if s.isIconic then GameState.MINIMIZED
  else
    let state := scanState s.px
    if s.printResult ≠ 1 then GameState.SCREENSHOT_FAIL
    else state

/-- A gray pixel: its luma equals its channel value, because the three
luma coefficients sum to exactly 1. -/
def grayPixel (v : ℚ) : Pixel := ⟨v, v, v⟩

/-- Region of pixels all at luma exactly 93.425. -/
def uniformBossRegion : Region := fun _ _ => grayPixel (93425/1000)

/-- uniformBossRegion with the single pixel at (x, y) replaced by a gray
pixel of luma exactly 100. -/
def flippedRegion (x y : ℕ) : Region := fun i j =>
  if i = x ∧ j = y then grayPixel 100 else grayPixel (93425/1000)

/- ------------------------------------------------------------------ -/
/- Classifier lemmas -/

theorem luma_grayPixel (v : ℚ) :
    2126/10000 * (grayPixel v).r + 7152/10000 * (grayPixel v).g
      + 722/10000 * (grayPixel v).b = v := by
  simp only [grayPixel]
  ring

theorem is_boss_pixel_gray_iff (v : ℚ) :
    is_boss_pixel (grayPixel v) = true ↔ |v - 93425/1000| < 1 := by
  unfold is_boss_pixel
  rw [decide_eq_true_iff]
  rw [show (2126:ℚ)/10000 * (grayPixel v).r + 7152/10000 * (grayPixel v).g
      + 722/10000 * (grayPixel v).b = v from luma_grayPixel v]

theorem is_boss_pixel_gray_boss : is_boss_pixel (grayPixel (93425/1000)) = true := by
  rw [is_boss_pixel_gray_iff]
  norm_num

theorem is_boss_pixel_gray_100 : is_boss_pixel (grayPixel 100) = false := by
  rw [Bool.eq_false_iff]
  intro h
  rw [is_boss_pixel_gray_iff] at h
  rw [abs_lt] at h
  have h2 := h.2
  norm_num at h2

theorem regionWidth_eq : regionWidth = 5 := by decide

theorem regionHeight_eq : regionHeight = 30 := by decide

/-- The scan yields BOSS_WAVE exactly when every pixel with both
coordinates at least 1 and inside the 5 x 30 crop passes is_boss_pixel. -/
theorem scanState_eq_boss_iff (px : Region) :
    scanState px = GameState.BOSS_WAVE ↔
      ∀ i j : ℕ, 1 ≤ i → i < regionWidth → 1 ≤ j → j < regionHeight →
        is_boss_pixel (px i j) = true := by
  unfold scanState
  rw [regionWidth_eq, regionHeight_eq]
  constructor
  · intro h
    by_cases hc : ((List.range' 1 (5 - 1)).all fun i =>
        (List.range' 1 (30 - 1)).all fun j => is_boss_pixel (px i j)) = true
    · intro i j hi1 hi2 hj1 hj2
      rw [List.all_eq_true] at hc
      have hi : i ∈ List.range' 1 (5 - 1) := by
        rw [List.mem_range'_1]
        omega
      have hcj := hc i hi
      rw [List.all_eq_true] at hcj
      exact hcj j (by rw [List.mem_range'_1]; omega)
    · rw [if_neg hc] at h
      exact absurd h (by intro hh; cases hh)
  · intro h
    rw [if_pos]
    rw [List.all_eq_true]
    intro i hi
    rw [List.all_eq_true]
    intro j hj
    rw [List.mem_range'_1] at hi hj
    exact h i j hi.1 (by omega) hj.1 (by omega)

theorem scanState_uniform : scanState uniformBossRegion = GameState.BOSS_WAVE := by
  rw [scanState_eq_boss_iff]
  intro i j _ _ _ _
  exact is_boss_pixel_gray_boss

theorem scanState_boss_or_other (px : Region) :
    scanState px = GameState.BOSS_WAVE ∨ scanState px = GameState.OTHER := by
  unfold scanState
  split
  · exact Or.inl rfl
  · exact Or.inr rfl

theorem scanState_flipped_interior : scanState (flippedRegion 2 3) = GameState.OTHER := by
  rcases scanState_boss_or_other (flippedRegion 2 3) with h | h
  · rw [scanState_eq_boss_iff] at h
    have h23 := h 2 3 (by omega) (by rw [regionWidth_eq]; omega)
      (by omega) (by rw [regionHeight_eq]; omega)
    rw [show flippedRegion 2 3 2 3 = grayPixel 100 by
      unfold flippedRegion; rw [if_pos ⟨rfl, rfl⟩]] at h23
    rw [is_boss_pixel_gray_100] at h23
    cases h23
  · exact h

theorem scanState_flipped_corner : scanState (flippedRegion 0 0) = GameState.BOSS_WAVE := by
  rw [scanState_eq_boss_iff]
  intro i j hi1 _ _ _
  rw [show flippedRegion 0 0 i j = grayPixel (93425/1000) by
    unfold flippedRegion
    rw [if_neg]
    intro hc
    omega]
  exact is_boss_pixel_gray_boss

theorem game_state_ok_px (px : Region) :
    game_state ⟨true, false, 1, px⟩ = scanState px := by
  unfold game_state
  simp

/- ------------------------------------------------------------------ -/
/- Detection loop / debounce state machine -/

/-- The mutable per-run session of Notifier.monitor: prev_state (line 61),
active_time_without_boss (line 64), and the windows_notifier.alive flag
that the while condition on line 144 reads (it is cleared only by the
tray Exit command, line 284). -/
structure Session where
  prev_state : Option GameState
  active_time_without_boss : ℚ
  alive : Bool

/-- Session state created by Notifier.__init__ (lines 59-67): no previous
state, and active_time_without_boss pre-set to MIN_BOSS_INTERVAL so the
first boss wave always notifies. -/
def initSession : Session :=
  { prev_state := none
    active_time_without_boss := MIN_BOSS_INTERVAL
    alive := true }

/-- Observable outcome of one iteration of the monitor loop body:
whether notify was called, whether a log line with state_change=True was
emitted, and the updated session. -/
structure TickResult where
  notified : Bool
  loggedAlways : Bool
  session : Session

/-- One iteration of the loop body of Notifier.monitor (lines 145-167),
with the sampled GameState supplied as input.  On a state change, notify
fires for BOSS_WAVE when active_time_without_boss has reached
MIN_BOSS_INTERVAL, and always for SCREENSHOT_FAIL and MINIMIZED; every
state change emits a log line with state_change=True.  Afterwards
(lines 161-166) the counter resets to 0 on BOSS_WAVE, grows by
CHECK_STATE_INTERVAL on OTHER, and is untouched otherwise; prev_state is
set to the sampled state; the alive flag is never written by the loop. -/
def monitorTick (s : Session) (state : GameState) : TickResult :=
  let transition : Bool := decide (some state ≠ s.prev_state)
  let notified : Bool := transition &&
    ((decide (state = GameState.BOSS_WAVE) &&
        decide (MIN_BOSS_INTERVAL ≤ s.active_time_without_boss)) ||
      decide (state = GameState.SCREENSHOT_FAIL) ||
      decide (state = GameState.MINIMIZED))
  let atwb : ℚ :=
    if state = GameState.BOSS_WAVE then 0
    else if state = GameState.OTHER then
      s.active_time_without_boss + CHECK_STATE_INTERVAL
    else s.active_time_without_boss
  { notified := notified
    loggedAlways := transition
    session :=
      { prev_state := some state
        active_time_without_boss := atwb
        alive := s.alive } }

/-- Notifications produced by running the loop body over a trace of
sampled states. -/
def runNotifs : Session → List GameState → List Bool
  | _, [] => []
  | s, st :: rest =>
      (monitorTick s st).notified :: runNotifs (monitorTick s st).session rest

/-- Session after running the loop body over a trace of sampled states. -/
def finalSession : Session → List GameState → Session
  | s, [] => s
  | s, st :: rest => finalSession (monitorTick s st).session rest

/- Session state machine helper lemmas -/

theorem finalSession_append (s : Session) (l1 l2 : List GameState) :
    finalSession s (l1 ++ l2) = finalSession (finalSession s l1) l2 := by
  induction l1 generalizing s with
  | nil => rfl
  | cons st rest ih =>
      show finalSession (monitorTick s st).session (rest ++ l2) = _
      rw [ih]
      rfl

theorem runNotifs_append (s : Session) (l1 l2 : List GameState) :
    runNotifs s (l1 ++ l2) = runNotifs s l1 ++ runNotifs (finalSession s l1) l2 := by
  induction l1 generalizing s with
  | nil => rfl
  | cons st rest ih =>
      show (monitorTick s st).notified :: runNotifs (monitorTick s st).session (rest ++ l2) = _
      rw [ih]
      rfl

theorem monitorTick_alive (s : Session) (st : GameState) :
    (monitorTick s st).session.alive = s.alive := rfl

theorem finalSession_alive (s : Session) (tr : List GameState) :
    (finalSession s tr).alive = s.alive := by
  induction tr generalizing s with
  | nil => rfl
  | cons st rest ih =>
      show (finalSession (monitorTick s st).session rest).alive = s.alive
      rw [ih]
      rfl

theorem monitorTick_prev (s : Session) (st : GameState) :
    (monitorTick s st).session.prev_state = some st := rfl

/-- On a tick whose state is neither BOSS_WAVE nor OTHER, the counter is
untouched. -/
theorem monitorTick_atwb_frozen (s : Session) (st : GameState)
    (h1 : st ≠ GameState.BOSS_WAVE) (h2 : st ≠ GameState.OTHER) :
    (monitorTick s st).session.active_time_without_boss
      = s.active_time_without_boss := by
  unfold monitorTick
  simp [h1, h2]

theorem monitorTick_atwb_other (s : Session) :
    (monitorTick s GameState.OTHER).session.active_time_without_boss
      = s.active_time_without_boss + CHECK_STATE_INTERVAL := by
  unfold monitorTick
  simp

theorem monitorTick_atwb_boss (s : Session) :
    (monitorTick s GameState.BOSS_WAVE).session.active_time_without_boss = 0 := by
  unfold monitorTick
  simp

/-- OTHER ticks never notify. -/
theorem monitorTick_other_not_notified (s : Session) :
    (monitorTick s GameState.OTHER).notified = false := by
  unfold monitorTick
  simp

/-- NOT_FOUND ticks never notify: in the transition branch of
Notifier.monitor, NOT_FOUND falls into the final else, which only logs. -/
theorem monitorTick_not_found_not_notified (s : Session) :
    (monitorTick s GameState.NOT_FOUND).notified = false := by
  unfold monitorTick
  simp

/-- A BOSS_WAVE tick notifies exactly when it is a state change and the
counter has reached MIN_BOSS_INTERVAL. -/
theorem monitorTick_boss_notified_iff (s : Session) :
    (monitorTick s GameState.BOSS_WAVE).notified = true ↔
      (s.prev_state ≠ some GameState.BOSS_WAVE ∧
        MIN_BOSS_INTERVAL ≤ s.active_time_without_boss) := by
  unfold monitorTick
  simp [ne_comm]

/-- A MINIMIZED tick notifies exactly when it is a state change. -/
theorem monitorTick_min_notified_iff (s : Session) :
    (monitorTick s GameState.MINIMIZED).notified = true ↔
      s.prev_state ≠ some GameState.MINIMIZED := by
  unfold monitorTick
  simp [ne_comm]

/-- A SCREENSHOT_FAIL tick notifies exactly when it is a state change. -/
theorem monitorTick_fail_notified_iff (s : Session) :
    (monitorTick s GameState.SCREENSHOT_FAIL).notified = true ↔
      s.prev_state ≠ some GameState.SCREENSHOT_FAIL := by
  unfold monitorTick
  simp [ne_comm]

theorem monitorTick_loggedAlways_iff (s : Session) (st : GameState) :
    (monitorTick s st).loggedAlways = true ↔ s.prev_state ≠ some st := by
  unfold monitorTick
  simp [ne_comm]

/-- Running a boss-free trace adds exactly CHECK_STATE_INTERVAL per OTHER
tick to the counter. -/
theorem finalSession_atwb_no_boss (tr : List GameState) :
    ∀ s : Session, (∀ x ∈ tr, x ≠ GameState.BOSS_WAVE) →
      (finalSession s tr).active_time_without_boss
        = s.active_time_without_boss
          + (tr.count GameState.OTHER : ℚ) * CHECK_STATE_INTERVAL := by
  induction tr with
  | nil => intro s _; simp [finalSession]
  | cons st rest ih =>
      intro s h
      have hst : st ≠ GameState.BOSS_WAVE := h st (List.mem_cons_self st rest)
      have hrest : ∀ x ∈ rest, x ≠ GameState.BOSS_WAVE :=
        fun x hx => h x (List.mem_cons_of_mem st hx)
      show (finalSession (monitorTick s st).session rest).active_time_without_boss = _
      rw [ih _ hrest]
      by_cases ho : st = GameState.OTHER
      · subst ho
        rw [monitorTick_atwb_other]
        rw [List.count_cons_self]
        push_cast
        ring
      · rw [monitorTick_atwb_frozen s st hst ho]
        rw [List.count_cons_of_ne]
        · exact fun hc => ho hc.symm

/-- The counter never decreases along a boss-free trace. -/
theorem finalSession_atwb_mono (tr : List GameState) :
    ∀ s : Session, (∀ x ∈ tr, x ≠ GameState.BOSS_WAVE) →
      s.active_time_without_boss ≤ (finalSession s tr).active_time_without_boss := by
  intro s h
  rw [finalSession_atwb_no_boss tr s h]
  have : (0:ℚ) ≤ (tr.count GameState.OTHER : ℚ) * CHECK_STATE_INTERVAL := by
    apply mul_nonneg
    · exact_mod_cast Nat.zero_le _
    · norm_num [CHECK_STATE_INTERVAL]
  linarith

/-- After a nonempty boss-free trace, the previous state is not
BOSS_WAVE. -/
theorem finalSession_prev_ne_boss (rest : List GameState) :
    ∀ (st : GameState) (s : Session), (∀ x ∈ st :: rest, x ≠ GameState.BOSS_WAVE) →
      (finalSession s (st :: rest)).prev_state ≠ some GameState.BOSS_WAVE := by
  induction rest with
  | nil =>
      intro st s h
      show (monitorTick s st).session.prev_state ≠ some GameState.BOSS_WAVE
      rw [monitorTick_prev]
      intro hc
      exact h st (List.mem_cons_self st []) (Option.some.inj hc)
  | cons st2 rest2 ih =>
      intro st s h
      show (finalSession (monitorTick s st).session (st2 :: rest2)).prev_state
        ≠ some GameState.BOSS_WAVE
      exact ih st2 (monitorTick s st).session
        (fun x hx => h x (List.mem_cons_of_mem st hx))

/-- Along a boss-free trace starting with prev_state not BOSS_WAVE, the
previous state stays distinct from BOSS_WAVE. -/
theorem finalSession_prev_ne_boss_of_ne (tr : List GameState) :
    ∀ s : Session, s.prev_state ≠ some GameState.BOSS_WAVE →
      (∀ x ∈ tr, x ≠ GameState.BOSS_WAVE) →
      (finalSession s tr).prev_state ≠ some GameState.BOSS_WAVE := by
  intro s hs h
  cases tr with
  | nil => exact hs
  | cons st rest => exact finalSession_prev_ne_boss rest st s h

/-- Runs of OTHER ticks produce no notifications. -/
theorem runNotifs_replicate_other (n : ℕ) :
    ∀ s : Session, runNotifs s (List.replicate n GameState.OTHER)
      = List.replicate n false := by
  induction n with
  | zero => intro s; rfl
  | succ k ih =>
      intro s
      show (monitorTick s GameState.OTHER).notified
          :: runNotifs (monitorTick s GameState.OTHER).session
              (List.replicate k GameState.OTHER)
        = List.replicate (k + 1) false
      rw [monitorTick_other_not_notified, ih]
      rfl

/-- A run of MINIMIZED ticks starting with prev_state already MINIMIZED
produces no notifications. -/
theorem runNotifs_replicate_min_stay (n : ℕ) :
    ∀ s : Session, s.prev_state = some GameState.MINIMIZED →
      runNotifs s (List.replicate n GameState.MINIMIZED)
        = List.replicate n false := by
  induction n with
  | zero => intro s _; rfl
  | succ k ih =>
      intro s hs
      show (monitorTick s GameState.MINIMIZED).notified
          :: runNotifs (monitorTick s GameState.MINIMIZED).session
              (List.replicate k GameState.MINIMIZED)
        = List.replicate (k + 1) false
      have hn : (monitorTick s GameState.MINIMIZED).notified = false := by
        rw [Bool.eq_false_iff]
        intro hc
        rw [monitorTick_min_notified_iff] at hc
        exact hc hs
      rw [hn, ih _ (monitorTick_prev s GameState.MINIMIZED)]
      rfl

/-- A run of MINIMIZED ticks entered from a different state notifies on
the first tick only. -/
theorem runNotifs_replicate_min_enter (n : ℕ) (s : Session)
    (hs : s.prev_state ≠ some GameState.MINIMIZED) :
    runNotifs s (List.replicate (n + 1) GameState.MINIMIZED)
      = true :: List.replicate n false := by
  show (monitorTick s GameState.MINIMIZED).notified
      :: runNotifs (monitorTick s GameState.MINIMIZED).session
          (List.replicate n GameState.MINIMIZED)
    = true :: List.replicate n false
  rw [(monitorTick_min_notified_iff s).mpr hs]
  rw [runNotifs_replicate_min_stay n _ (monitorTick_prev s GameState.MINIMIZED)]

/- ------------------------------------------------------------------ -/
/- Logging -/

/-- Fields of Notifier that Notifier.log (lines 69-72) reads: the verbose
flag and interval from the constructor kwargs, and status_time, the time
of the last printed line (initially 0, line 62). -/
structure Logger where
  verbose : Bool
  interval : ℚ
  status_time : ℚ

/-- The print condition of Notifier.log (line 70):
state_change or (self.verbose and (now - self.status_time) > self.interval),
with now standing for time.time(). -/
def logEmits (lg : Logger) (now : ℚ) (state_change : Bool) : Bool :=
  state_change || (lg.verbose && decide (lg.interval < now - lg.status_time))

/-- One call of Notifier.log: returns whether a line was printed, and the
updated logger state (status_time is set to now exactly when a line is
printed, lines 71-72). -/
def logStep (lg : Logger) (now : ℚ) (state_change : Bool) : Bool × Logger :=
  if logEmits lg now state_change then (true, { lg with status_time := now })
  else (false, lg)

/-- Logger state after a sequence of log calls, each a pair of the call
time and its state_change argument. -/
def foldLogger (lg : Logger) (calls : List (ℚ × Bool)) : Logger :=
  calls.foldl (fun l c => (logStep l c.1 c.2).2) lg

theorem logStep_interval (lg : Logger) (now : ℚ) (sc : Bool) :
    (logStep lg now sc).2.interval = lg.interval := by
  unfold logStep
  split <;> rfl

theorem logStep_verbose (lg : Logger) (now : ℚ) (sc : Bool) :
    (logStep lg now sc).2.verbose = lg.verbose := by
  unfold logStep
  split <;> rfl

theorem foldLogger_interval (calls : List (ℚ × Bool)) :
    ∀ lg : Logger, (foldLogger lg calls).interval = lg.interval := by
  induction calls with
  | nil => intro lg; rfl
  | cons c rest ih =>
      intro lg
      show (foldLogger (logStep lg c.1 c.2).2 rest).interval = lg.interval
      rw [ih, logStep_interval]

/-- A non-state-change call prints only when past the throttle interval,
and printing stamps status_time with the call time. -/
theorem logStep_quiet_emits_iff (lg : Logger) (now : ℚ) :
    (logStep lg now false).1 = true ↔
      (lg.verbose = true ∧ lg.interval < now - lg.status_time) := by
  unfold logStep logEmits
  split
  · next h =>
      simp only [true_iff]
      simpa using h
  · next h =>
      simp only [false_iff]
      simpa using h

theorem logStep_status_of_emits (lg : Logger) (now : ℚ) (sc : Bool)
    (h : (logStep lg now sc).1 = true) :
    (logStep lg now sc).2.status_time = now := by
  unfold logStep at h ⊢
  split at h
  · next hc => rw [if_pos hc]
  · cases h

/-- status_time can only move forward through calls whose times are all
at least the current status_time. -/
theorem foldLogger_status_ge (calls : List (ℚ × Bool)) :
    ∀ (lg : Logger) (t : ℚ), t ≤ lg.status_time → (∀ c ∈ calls, t ≤ c.1) →
      t ≤ (foldLogger lg calls).status_time := by
  induction calls with
  | nil => intro lg t h _; exact h
  | cons c rest ih =>
      intro lg t h hc
      show t ≤ (foldLogger (logStep lg c.1 c.2).2 rest).status_time
      apply ih
      · unfold logStep
        split
        · exact hc c (List.mem_cons_self c rest)
        · exact h
      · exact fun d hd => hc d (List.mem_cons_of_mem c hd)

/- ------------------------------------------------------------------ -/
/- Command-line surface -/

/-- The option strings registered on the argparse parser in the
main block (lines 304-311): only -v, --verbose, -i, --interval. -/
def cliOptionStrings : List String := ["-v", "--verbose", "-i", "--interval"]

/- ------------------------------------------------------------------ -/
/- Spec-side definition for the boss-cooldown refinement claim -/

/-- Modelled from the spec: the claimed eligibility gate for a boss-wave
notification, namely that the wall-clock time elapsed since the last
notified boss wave is at least 120 seconds.  Ticks are
CHECK_STATE_INTERVAL = 0.5 seconds apart, so the elapsed wall-clock
time after a given number of ticks is that count times
CHECK_STATE_INTERVAL. -/
def specWallClockCooldownElapsed (ticksSinceNotified : ℕ) : Prop :=
  MIN_BOSS_INTERVAL ≤ (ticksSinceNotified : ℚ) * CHECK_STATE_INTERVAL

/- ------------------------------------------------------------------ -/
/- Re-entry runs into BOSS_WAVE -/

/-- From a session that has just seen a BOSS_WAVE tick (counter 0,
previous state BOSS_WAVE), a run of n OTHER ticks followed by a BOSS_WAVE
tick notifies on the last tick exactly when n ticks of accumulated OTHER
time reach MIN_BOSS_INTERVAL. -/
theorem boss_reentry_notifs (n : ℕ) (s : Session)
    (hp : s.prev_state = some GameState.BOSS_WAVE)
    (ha : s.active_time_without_boss = 0) :
    runNotifs s (List.replicate n GameState.OTHER ++ [GameState.BOSS_WAVE])
      = List.replicate n false
        ++ [decide (MIN_BOSS_INTERVAL ≤ (n : ℚ) * CHECK_STATE_INTERVAL)] := by
  rw [runNotifs_append, runNotifs_replicate_other]
  congr 1
  have hno : ∀ x ∈ List.replicate n GameState.OTHER, x ≠ GameState.BOSS_WAVE := by
    intro x hx
    rw [List.eq_of_mem_replicate hx]
    intro hc
    cases hc
  have hatwb : (finalSession s (List.replicate n GameState.OTHER)).active_time_without_boss
      = (n : ℚ) * CHECK_STATE_INTERVAL := by
    rw [finalSession_atwb_no_boss _ _ hno, ha, zero_add]
    rw [List.count_replicate_self]
  show [(monitorTick (finalSession s (List.replicate n GameState.OTHER))
    GameState.BOSS_WAVE).notified] = _
  cases n with
  | zero =>
      have hfin : finalSession s (List.replicate 0 GameState.OTHER) = s := rfl
      rw [hfin]
      have hnot : (monitorTick s GameState.BOSS_WAVE).notified = false := by
        rw [Bool.eq_false_iff]
        intro hc
        rw [monitorTick_boss_notified_iff] at hc
        exact hc.1 hp
      rw [hnot]
      have hdec : decide (MIN_BOSS_INTERVAL ≤ ((0:ℕ) : ℚ) * CHECK_STATE_INTERVAL) = false := by
        rw [decide_eq_false_iff_not]
        norm_num [MIN_BOSS_INTERVAL]
      rw [hdec]
  | succ k =>
      have hprev : (finalSession s (List.replicate (k + 1) GameState.OTHER)).prev_state
          ≠ some GameState.BOSS_WAVE := by
        rw [List.replicate_succ]
        exact finalSession_prev_ne_boss _ _ _ (by
          rw [← List.replicate_succ]
          exact hno)
      by_cases hq : MIN_BOSS_INTERVAL ≤ ((k + 1 : ℕ) : ℚ) * CHECK_STATE_INTERVAL
      · have hnot : (monitorTick (finalSession s (List.replicate (k + 1) GameState.OTHER))
            GameState.BOSS_WAVE).notified = true := by
          rw [monitorTick_boss_notified_iff]
          exact ⟨hprev, by rw [hatwb]; exact hq⟩
        rw [hnot, decide_eq_true hq]
      · have hnot : (monitorTick (finalSession s (List.replicate (k + 1) GameState.OTHER))
            GameState.BOSS_WAVE).notified = false := by
          rw [Bool.eq_false_iff]
          intro hc
          rw [monitorTick_boss_notified_iff] at hc
          rw [hatwb] at hc
          exact hq hc.2
        rw [hnot, decide_eq_false hq]

theorem c4_prefix_notifs :
    runNotifs initSession [GameState.OTHER, GameState.BOSS_WAVE] = [false, true] := by
  show (monitorTick initSession GameState.OTHER).notified
      :: (monitorTick (monitorTick initSession GameState.OTHER).session
          GameState.BOSS_WAVE).notified :: [] = _
  rw [monitorTick_other_not_notified]
  have h2 : (monitorTick (monitorTick initSession GameState.OTHER).session
      GameState.BOSS_WAVE).notified = true := by
    rw [monitorTick_boss_notified_iff]
    constructor
    · rw [monitorTick_prev]
      intro hc
      cases Option.some.inj hc
    · rw [monitorTick_atwb_other]
      show MIN_BOSS_INTERVAL ≤ MIN_BOSS_INTERVAL + CHECK_STATE_INTERVAL
      norm_num [MIN_BOSS_INTERVAL, CHECK_STATE_INTERVAL]
  rw [h2]

theorem c4_prefix_prev :
    (finalSession initSession [GameState.OTHER, GameState.BOSS_WAVE]).prev_state
      = some GameState.BOSS_WAVE := rfl

theorem c4_prefix_atwb :
    (finalSession initSession
      [GameState.OTHER, GameState.BOSS_WAVE]).active_time_without_boss = 0 := by
  show (monitorTick (monitorTick initSession GameState.OTHER).session
    GameState.BOSS_WAVE).session.active_time_without_boss = 0
  rw [monitorTick_atwb_boss]

/- ================================================================== -/
/- Claim theorems -/

/-- Claim C1, counterexample: on the very first tick, a NOT_FOUND
classification fires no desktop notification at all (the monitor loop
only logs it), and the alive flag that the while condition reads is left
true, so a further tick is scheduled.  This contradicts the claim that a
NotFound tick causes exactly one notification after which the loop
terminates. -/
theorem C1_counterexample :
    (monitorTick initSession GameState.NOT_FOUND).notified = false
      ∧ (monitorTick initSession GameState.NOT_FOUND).session.alive = true := by
  exact ⟨monitorTick_not_found_not_notified initSession, rfl⟩

/-- Claim C1, amended: a tick classified NOT_FOUND never notifies and
emits the unconditional log line exactly on the transition edge; a tick
classified SCREENSHOT_FAIL notifies, with the unconditional log line,
exactly on the transition edge; neither state terminates the loop: the
loop body never writes the alive flag, which only the tray Exit command
clears. -/
theorem C1_amended (s : Session) :
    (monitorTick s GameState.NOT_FOUND).notified = false
    ∧ ((monitorTick s GameState.SCREENSHOT_FAIL).notified = true ↔
        s.prev_state ≠ some GameState.SCREENSHOT_FAIL)
    ∧ ((monitorTick s GameState.NOT_FOUND).loggedAlways = true ↔
        s.prev_state ≠ some GameState.NOT_FOUND)
    ∧ ((monitorTick s GameState.SCREENSHOT_FAIL).loggedAlways = true ↔
        s.prev_state ≠ some GameState.SCREENSHOT_FAIL)
    ∧ (monitorTick s GameState.NOT_FOUND).session.alive = s.alive
    ∧ (monitorTick s GameState.SCREENSHOT_FAIL).session.alive = s.alive := by
  refine ⟨monitorTick_not_found_not_notified s, monitorTick_fail_notified_iff s,
    monitorTick_loggedAlways_iff s _, monitorTick_loggedAlways_iff s _,
    monitorTick_alive s _, monitorTick_alive s _⟩

/-- Claim C2, counterexample: take the successful capture whose region is
uniformly at luma exactly 93.425 except that the single pixel at
position (0, 0) — first row and first column — is changed to luma 100.
The classifier still returns BOSS_WAVE, because the scan loops start at
index 1 and never examine row 0 or column 0; the claim says this region
must classify as Other. -/
theorem C2_counterexample :
    game_state ⟨true, false, 1, flippedRegion 0 0⟩ = GameState.BOSS_WAVE := by
  rw [game_state_ok_px]
  exact scanState_flipped_corner

/-- Claim C2, amended: on a successful capture the classifier returns
BOSS_WAVE exactly when every pixel with both coordinates at least 1
(that is, excluding row 0 and column 0 of the 5 x 30 region) has luma
strictly within 1.0 of 93.425.  A region uniformly at luma 93.425
classifies BOSS_WAVE; changing one scanned pixel (for example at (2, 3))
to luma 100 gives OTHER; changing the unscanned pixel (0, 0) leaves it
BOSS_WAVE. -/
theorem C2_amended :
    (∀ px : Region, game_state ⟨true, false, 1, px⟩ = GameState.BOSS_WAVE ↔
      ∀ i j : ℕ, 1 ≤ i → i < regionWidth → 1 ≤ j → j < regionHeight →
        is_boss_pixel (px i j) = true)
    ∧ game_state ⟨true, false, 1, uniformBossRegion⟩ = GameState.BOSS_WAVE
    ∧ game_state ⟨true, false, 1, flippedRegion 2 3⟩ = GameState.OTHER
    ∧ game_state ⟨true, false, 1, flippedRegion 0 0⟩ = GameState.BOSS_WAVE := by
  refine ⟨fun px => ?_, ?_, ?_, ?_⟩
  · rw [game_state_ok_px]
    exact scanState_eq_boss_iff px
  · rw [game_state_ok_px]
    exact scanState_uniform
  · rw [game_state_ok_px]
    exact scanState_flipped_interior
  · rw [game_state_ok_px]
    exact scanState_flipped_corner

/-- Claim C3, counterexample: run the trace BOSS_WAVE, then 300 MINIMIZED
ticks, then OTHER, then BOSS_WAVE, from the initial session.  The first
tick notifies.  The final BOSS_WAVE tick comes 302 ticks — 151 seconds of
wall-clock time, past the claimed 120-second gate measured from the last
notification (specWallClockCooldownElapsed 302 holds) — yet it does not
notify, because active_time_without_boss only advanced on the single
OTHER tick: the MINIMIZED ticks froze it, contradicting both the
wall-clock reading and the claimed independence from Other-versus-
Minimized classification of the intervening ticks. -/
theorem C3_counterexample :
    runNotifs initSession
        (GameState.BOSS_WAVE
          :: (List.replicate 300 GameState.MINIMIZED
              ++ [GameState.OTHER, GameState.BOSS_WAVE]))
      = true :: ((true :: List.replicate 299 false) ++ [false, false])
    ∧ specWallClockCooldownElapsed 302 := by
  constructor
  · show (monitorTick initSession GameState.BOSS_WAVE).notified
        :: runNotifs (monitorTick initSession GameState.BOSS_WAVE).session
            (List.replicate 300 GameState.MINIMIZED
              ++ [GameState.OTHER, GameState.BOSS_WAVE]) = _
    have h1 : (monitorTick initSession GameState.BOSS_WAVE).notified = true := by
      rw [monitorTick_boss_notified_iff]
      constructor
      · intro hc
        cases hc
      · exact le_refl _
    rw [h1, runNotifs_append]
    have h2 : runNotifs (monitorTick initSession GameState.BOSS_WAVE).session
        (List.replicate 300 GameState.MINIMIZED) = true :: List.replicate 299 false := by
      apply runNotifs_replicate_min_enter
      rw [monitorTick_prev]
      intro hc
      cases Option.some.inj hc
    rw [h2]
    have hmidatwb : (finalSession (monitorTick initSession GameState.BOSS_WAVE).session
        (List.replicate 300 GameState.MINIMIZED)).active_time_without_boss = 0 := by
      rw [finalSession_atwb_no_boss]
      · rw [monitorTick_atwb_boss]
        have hc : (List.replicate 300 GameState.MINIMIZED).count GameState.OTHER = 0 := by
          rw [List.count_eq_zero]
          intro hc
          cases List.eq_of_mem_replicate hc
        rw [hc]
        norm_num
      · intro x hx
        rw [List.eq_of_mem_replicate hx]
        intro hc
        cases hc
    have h3 : (monitorTick (monitorTick (finalSession
        (monitorTick initSession GameState.BOSS_WAVE).session
        (List.replicate 300 GameState.MINIMIZED)) GameState.OTHER).session
          GameState.BOSS_WAVE).notified = false := by
      rw [Bool.eq_false_iff]
      intro hc
      rw [monitorTick_boss_notified_iff] at hc
      have := hc.2
      rw [monitorTick_atwb_other, hmidatwb] at this
      norm_num [MIN_BOSS_INTERVAL, CHECK_STATE_INTERVAL] at this
    have h4 : runNotifs (finalSession
        (monitorTick initSession GameState.BOSS_WAVE).session
        (List.replicate 300 GameState.MINIMIZED))
          [GameState.OTHER, GameState.BOSS_WAVE] = [false, false] := by
      show (monitorTick (finalSession
          (monitorTick initSession GameState.BOSS_WAVE).session
          (List.replicate 300 GameState.MINIMIZED)) GameState.OTHER).notified
        :: (monitorTick (monitorTick (finalSession
            (monitorTick initSession GameState.BOSS_WAVE).session
            (List.replicate 300 GameState.MINIMIZED)) GameState.OTHER).session
              GameState.BOSS_WAVE).notified :: [] = [false, false]
      rw [monitorTick_other_not_notified, h3]
    rw [h4]
  · show MIN_BOSS_INTERVAL ≤ ((302:ℕ) : ℚ) * CHECK_STATE_INTERVAL
    norm_num [MIN_BOSS_INTERVAL, CHECK_STATE_INTERVAL]

/-- Claim C3, amended: a BOSS_WAVE tick notifies exactly when it is a
transition from a non-BossWave previous state and the counter
active_time_without_boss has reached 120 seconds.  That counter is not
wall-clock time since the last notification: every BOSS_WAVE tick resets
it to 0, every OTHER tick adds 0.5 seconds, and MINIMIZED ticks leave it
unchanged, so eligibility is accumulated Other-classified time since the
last detected BossWave tick and does depend on Other versus Minimized. -/
theorem C3_amended (s : Session) :
    ((monitorTick s GameState.BOSS_WAVE).notified = true ↔
      (s.prev_state ≠ some GameState.BOSS_WAVE ∧
        MIN_BOSS_INTERVAL ≤ s.active_time_without_boss))
    ∧ (monitorTick s GameState.BOSS_WAVE).session.active_time_without_boss = 0
    ∧ (monitorTick s GameState.OTHER).session.active_time_without_boss
        = s.active_time_without_boss + CHECK_STATE_INTERVAL
    ∧ (monitorTick s GameState.MINIMIZED).session.active_time_without_boss
        = s.active_time_without_boss := by
  exact ⟨monitorTick_boss_notified_iff s, monitorTick_atwb_boss s,
    monitorTick_atwb_other s,
    monitorTick_atwb_frozen s _ (by intro h; cases h) (by intro h; cases h)⟩

/-- Claim C4: from startup, the trace Other, BossWave, 19 Other ticks,
BossWave — the second BossWave 20 ticks, that is 10 seconds, after the
notified first one — fires no second notification; with 259 intervening
Other ticks — the second BossWave 260 ticks, 130 seconds, after —
a second notification fires. -/
theorem C4_theorem :
    runNotifs initSession ([GameState.OTHER, GameState.BOSS_WAVE]
        ++ (List.replicate 19 GameState.OTHER ++ [GameState.BOSS_WAVE]))
      = [false, true] ++ (List.replicate 19 false ++ [false])
    ∧ runNotifs initSession ([GameState.OTHER, GameState.BOSS_WAVE]
        ++ (List.replicate 259 GameState.OTHER ++ [GameState.BOSS_WAVE]))
      = [false, true] ++ (List.replicate 259 false ++ [true]) := by
  constructor
  · rw [runNotifs_append, c4_prefix_notifs]
    rw [boss_reentry_notifs 19 _ c4_prefix_prev c4_prefix_atwb]
    have hd : decide (MIN_BOSS_INTERVAL ≤ ((19:ℕ) : ℚ) * CHECK_STATE_INTERVAL) = false := by
      rw [decide_eq_false_iff_not]
      norm_num [MIN_BOSS_INTERVAL, CHECK_STATE_INTERVAL]
    rw [hd]
  · rw [runNotifs_append, c4_prefix_notifs]
    rw [boss_reentry_notifs 259 _ c4_prefix_prev c4_prefix_atwb]
    have hd : decide (MIN_BOSS_INTERVAL ≤ ((259:ℕ) : ℚ) * CHECK_STATE_INTERVAL) = true := by
      rw [decide_eq_true_iff]
      norm_num [MIN_BOSS_INTERVAL, CHECK_STATE_INTERVAL]
    rw [hd]

/-- Claim C5: a MINIMIZED tick notifies exactly when the previous state
was anything other than MINIMIZED (including the initial tick, whose
previous state is none), and a run of consecutive MINIMIZED ticks entered
from such a state notifies exactly once, on its first tick. -/
theorem C5_theorem (s : Session) (n : ℕ) :
    ((monitorTick s GameState.MINIMIZED).notified = true ↔
      s.prev_state ≠ some GameState.MINIMIZED)
    ∧ (monitorTick s GameState.MINIMIZED).session.prev_state = some GameState.MINIMIZED
    ∧ (s.prev_state ≠ some GameState.MINIMIZED →
        runNotifs s (List.replicate (n + 1) GameState.MINIMIZED)
          = true :: List.replicate n false) := by
  exact ⟨monitorTick_min_notified_iff s, monitorTick_prev s _,
    fun h => runNotifs_replicate_min_enter n s h⟩

/-- Claim C5, witness: from the initial session (previous state none),
three MINIMIZED ticks notify exactly once, on the first tick. -/
theorem C5_theorem_witness :
    initSession.prev_state ≠ some GameState.MINIMIZED
    ∧ runNotifs initSession (List.replicate 3 GameState.MINIMIZED)
        = true :: List.replicate 2 false := by
  have h : initSession.prev_state ≠ some GameState.MINIMIZED := by
    intro hc
    cases hc
  exact ⟨h, (C5_theorem initSession 2).2.2 h⟩

/-- Claim C6: after any startup prefix containing no BOSS_WAVE tick, the
first BOSS_WAVE tick always notifies — the session starts with
active_time_without_boss already at MIN_BOSS_INTERVAL, the counter never
decreases on non-boss ticks, and the previous state cannot be BOSS_WAVE,
so the cooldown gate cannot suppress the first boss wave of a run, even
on the very first tick (empty prefix). -/
theorem C6_theorem (pre : List GameState)
    (h : ∀ st ∈ pre, st ≠ GameState.BOSS_WAVE) :
    (monitorTick (finalSession initSession pre) GameState.BOSS_WAVE).notified = true := by
  rw [monitorTick_boss_notified_iff]
  constructor
  · apply finalSession_prev_ne_boss_of_ne pre initSession _ h
    intro hc
    cases hc
  · have hmono := finalSession_atwb_mono pre initSession h
    have hinit : initSession.active_time_without_boss = MIN_BOSS_INTERVAL := rfl
    rw [hinit] at hmono
    exact hmono

/-- Claim C6, witness: after the boss-free prefix Other, Minimized, the
first BOSS_WAVE tick notifies. -/
theorem C6_theorem_witness :
    (∀ st ∈ [GameState.OTHER, GameState.MINIMIZED], st ≠ GameState.BOSS_WAVE)
    ∧ (monitorTick (finalSession initSession [GameState.OTHER, GameState.MINIMIZED])
        GameState.BOSS_WAVE).notified = true := by
  refine ⟨by decide, C6_theorem [GameState.OTHER, GameState.MINIMIZED] (by decide)⟩

/-- Claim C7: each sampling attempt yields exactly one GameState by
strict priority — NOT_FOUND when the window does not exist; else
MINIMIZED when iconic; else SCREENSHOT_FAIL when PrintWindow did not
return 1, regardless of the captured pixel data; else the pixel scan,
which yields only BOSS_WAVE or OTHER. -/
theorem C7_theorem (s : Sample) :
    (s.windowExists = false → game_state s = GameState.NOT_FOUND)
    ∧ (s.windowExists = true → s.isIconic = true → game_state s = GameState.MINIMIZED)
    ∧ (s.windowExists = true → s.isIconic = false → s.printResult ≠ 1 →
        ∀ px : Region,
          game_state ⟨s.windowExists, s.isIconic, s.printResult, px⟩
            = GameState.SCREENSHOT_FAIL)
    ∧ (s.windowExists = true → s.isIconic = false → s.printResult = 1 →
        game_state s = scanState s.px)
    ∧ (scanState s.px = GameState.BOSS_WAVE ∨ scanState s.px = GameState.OTHER) := by
  refine ⟨?_, ?_, ?_, ?_, scanState_boss_or_other s.px⟩
  · intro h
    unfold game_state
    rw [if_pos h]
  · intro hw hi
    unfold game_state
    rw [if_neg (by rw [hw]; intro hc; cases hc), if_pos hi]
  · intro hw hi hp px
    unfold game_state
    simp only [hw, hi]
    simp [hp]
  · intro hw hi hp
    unfold game_state
    rw [if_neg (by rw [hw]; intro hc; cases hc)]
    rw [if_neg (by rw [hi]; intro hc; cases hc)]
    rw [if_neg (by rw [hp]; intro hc; exact hc rfl)]

/-- Claim C7, witness: a sample whose window exists, is not iconic, whose
PrintWindow call returned 0, and whose captured pixels would classify as
BOSS_WAVE, still yields SCREENSHOT_FAIL. -/
theorem C7_theorem_witness :
    ((0:ℤ) ≠ 1)
    ∧ game_state ⟨true, false, 0, uniformBossRegion⟩ = GameState.SCREENSHOT_FAIL := by
  refine ⟨by decide, (C7_theorem ⟨true, false, 0, uniformBossRegion⟩).2.2.1
    rfl rfl (by decide) uniformBossRegion⟩

/-- Claim C8, counterexample: the argparse parser registers no quiet
flag — neither the option string --quiet nor -q exists; the program's
only flags are -v, --verbose, -i, --interval, so the claimed quiet mode
and its mutual exclusion with --verbose do not exist. -/
theorem C8_counterexample :
    ("--quiet" ∉ cliOptionStrings) ∧ ("-q" ∉ cliOptionStrings) := by
  constructor <;> simp [cliOptionStrings]

/-- Claim C8, amended: with verbose off — the default, and the only
non-verbose mode, since no quiet flag exists — a non-state-change log
call never prints; a state-change call always prints; and in verbose
mode any two printed non-state-change lines, with arbitrary further
calls between them whose times do not precede the first print, are
separated by more than the configured interval. -/
theorem C8_amended :
    (∀ (lg : Logger) (t : ℚ), lg.verbose = false → (logStep lg t false).1 = false)
    ∧ (∀ (lg : Logger) (t : ℚ), (logStep lg t true).1 = true)
    ∧ (∀ (lg : Logger) (pre : List (ℚ × Bool)) (t1 : ℚ) (mid : List (ℚ × Bool)) (t2 : ℚ),
        (logStep (foldLogger lg pre) t1 false).1 = true →
        (∀ c ∈ mid, t1 ≤ c.1) →
        (logStep (foldLogger (logStep (foldLogger lg pre) t1 false).2 mid) t2 false).1
          = true →
        lg.interval < t2 - t1)
    ∧ ("--quiet" ∉ cliOptionStrings ∧ "-q" ∉ cliOptionStrings) := by
  refine ⟨?_, ?_, ?_, by constructor <;> simp [cliOptionStrings]⟩
  · intro lg t hv
    rw [Bool.eq_false_iff]
    intro h
    rw [logStep_quiet_emits_iff] at h
    rw [hv] at h
    exact Bool.false_ne_true h.1
  · intro lg t
    unfold logStep logEmits
    simp
  · intro lg pre t1 mid t2 h1 hmid h2
    have hstat1 : (logStep (foldLogger lg pre) t1 false).2.status_time = t1 :=
      logStep_status_of_emits _ _ _ h1
    have hint1 : (logStep (foldLogger lg pre) t1 false).2.interval = lg.interval := by
      rw [logStep_interval, foldLogger_interval]
    have hstat2 : t1 ≤ (foldLogger (logStep (foldLogger lg pre) t1 false).2
        mid).status_time :=
      foldLogger_status_ge mid _ t1 (le_of_eq hstat1.symm) hmid
    have hint2 : (foldLogger (logStep (foldLogger lg pre) t1 false).2 mid).interval
        = lg.interval := by
      rw [foldLogger_interval, hint1]
    rw [logStep_quiet_emits_iff] at h2
    have := h2.2
    rw [hint2] at this
    linarith

/-- Claim C8, amended, witness: a logger with verbose off and a
non-state-change call never prints. -/
theorem C8_amended_witness :
    (Logger.mk false 5 0).verbose = false
    ∧ (logStep (Logger.mk false 5 0) 3 false).1 = false := by
  exact ⟨rfl, C8_amended.1 (Logger.mk false 5 0) 3 rfl⟩

/-- Claim C9: the counter active_time_without_boss advances, by
CHECK_STATE_INTERVAL = 0.5 seconds, only on OTHER ticks; MINIMIZED,
NOT_FOUND and SCREENSHOT_FAIL ticks leave it exactly unchanged, so time
spent in those states never counts toward the 120-second gate. -/
theorem C9_theorem (s : Session) :
    (monitorTick s GameState.OTHER).session.active_time_without_boss
        = s.active_time_without_boss + CHECK_STATE_INTERVAL
    ∧ (monitorTick s GameState.MINIMIZED).session.active_time_without_boss
        = s.active_time_without_boss
    ∧ (monitorTick s GameState.NOT_FOUND).session.active_time_without_boss
        = s.active_time_without_boss
    ∧ (monitorTick s GameState.SCREENSHOT_FAIL).session.active_time_without_boss
        = s.active_time_without_boss
    ∧ CHECK_STATE_INTERVAL = 1/2 := by
  refine ⟨monitorTick_atwb_other s,
    monitorTick_atwb_frozen s _ (by intro h; cases h) (by intro h; cases h),
    monitorTick_atwb_frozen s _ (by intro h; cases h) (by intro h; cases h),
    monitorTick_atwb_frozen s _ (by intro h; cases h) (by intro h; cases h),
    rfl⟩

/-- Claim C10: every BOSS_WAVE tick resets active_time_without_boss to 0
— for any session, notified or not — and after a boss-free run of
further ticks, a re-entering BOSS_WAVE tick notifies exactly when the
OTHER ticks accumulated since that most recent BOSS_WAVE tick amount to
at least MIN_BOSS_INTERVAL seconds. -/
theorem C10_theorem (s : Session) (m : GameState) (rest : List GameState)
    (h : ∀ x ∈ m :: rest, x ≠ GameState.BOSS_WAVE) :
    (monitorTick s GameState.BOSS_WAVE).session.active_time_without_boss = 0
    ∧ ((monitorTick (finalSession (monitorTick s GameState.BOSS_WAVE).session
          (m :: rest)) GameState.BOSS_WAVE).notified = true ↔
        MIN_BOSS_INTERVAL ≤
          (((m :: rest).count GameState.OTHER : ℚ) * CHECK_STATE_INTERVAL)) := by
  refine ⟨monitorTick_atwb_boss s, ?_⟩
  rw [monitorTick_boss_notified_iff]
  have hatwb : (finalSession (monitorTick s GameState.BOSS_WAVE).session
      (m :: rest)).active_time_without_boss
        = ((m :: rest).count GameState.OTHER : ℚ) * CHECK_STATE_INTERVAL := by
    rw [finalSession_atwb_no_boss _ _ h, monitorTick_atwb_boss, zero_add]
  have hprev := finalSession_prev_ne_boss rest m
    (monitorTick s GameState.BOSS_WAVE).session h
  rw [hatwb]
  constructor
  · exact fun hc => hc.2
  · exact fun hq => ⟨hprev, hq⟩

/-- Claim C10, witness: after a BOSS_WAVE tick and 240 OTHER ticks — 120
seconds of accumulated active time — a re-entering BOSS_WAVE tick
notifies. -/
theorem C10_theorem_witness :
    (∀ x ∈ GameState.OTHER :: List.replicate 239 GameState.OTHER,
        x ≠ GameState.BOSS_WAVE)
    ∧ ((monitorTick initSession GameState.BOSS_WAVE).session.active_time_without_boss = 0
      ∧ ((monitorTick (finalSession
            (monitorTick initSession GameState.BOSS_WAVE).session
            (GameState.OTHER :: List.replicate 239 GameState.OTHER))
              GameState.BOSS_WAVE).notified = true ↔
          MIN_BOSS_INTERVAL ≤
            (((GameState.OTHER :: List.replicate 239 GameState.OTHER).count
                GameState.OTHER : ℚ) * CHECK_STATE_INTERVAL))) := by
  have h : ∀ x ∈ GameState.OTHER :: List.replicate 239 GameState.OTHER,
      x ≠ GameState.BOSS_WAVE := by
    intro x hx
    rcases List.mem_cons.mp hx with h1 | h2
    · rw [h1]; intro hc; cases hc
    · rw [List.eq_of_mem_replicate h2]; intro hc; cases hc
  exact ⟨h, C10_theorem initSession GameState.OTHER
    (List.replicate 239 GameState.OTHER) h⟩

end Mindustry

